import Mathlib

/-!
Verification of the screamscriber HTTP transcription API server
(`src/api_server.py`) against its natural-language specification.

Modelling conventions:
* Python `bytes` and `str` values are modelled as `List Char` (all inputs that
  matter here are ASCII, so one character corresponds to one byte); Lean
  `String` literals are converted with `.data`.
* Python exceptions are modelled by `Except PyErr`; `PyErr` distinguishes
  `ValueError` from `TypeError` because `handle_transcription` catches only
  `ValueError` around `float(temperature)` while the outer handler catches
  every exception.
* Numeric audio samples are modelled in exact rational arithmetic (`ℚ`);
  NumPy float64 arithmetic is an approximation of these exact values, and all
  concrete instances below are chosen so that float64 evaluates them exactly
  the same way.
* All recursion is structural (a fuel argument bounded by the input length
  where needed), so every definition evaluates inside the kernel.
-/

set_option maxRecDepth 100000

namespace Screamscriber

/-- Python exception values that the handler distinguishes: `except ValueError`
around `float(temperature)` catches only `valueError`; the outer
`except Exception` in `handle_transcription` catches both. -/
inductive PyErr where
  | valueError (msg : String)
  | typeError (msg : String)
deriving DecidableEq

/-- Python `str(e)`: the message carried by the exception. -/
def PyErr.str : PyErr → String
  | .valueError m => m
  | .typeError m => m

/-- Tests whether an exception is a `ValueError` (the only class caught by the
`except ValueError` clause at `api_server.py:106-108`). -/
def PyErr.isValueError : PyErr → Bool
  | .valueError _ => true
  | .typeError _ => false

/-! ### Byte-string primitives (Python `bytes`/`str` operations) -/

/-- Python `s.strip()` / `b.strip()`: remove leading and trailing whitespace. -/
def pyStrip (l : List Char) : List Char :=
  ((l.dropWhile Char.isWhitespace).reverse.dropWhile Char.isWhitespace).reverse

/-- The double-quote character stripped by `.strip(chr(34))` in
`parse_multipart`. -/
def quoteChar : Char := '"'

/-- Python `s.strip(chr(34))`: remove all leading and trailing double quotes. -/
def stripQuotes (l : List Char) : List Char :=
  ((l.dropWhile (fun c => c = quoteChar)).reverse.dropWhile (fun c => c = quoteChar)).reverse

/-- Python `b[:-n]`: drop the last `n` bytes. -/
def dropRightN (l : List Char) (n : ℕ) : List Char :=
  (l.reverse.drop n).reverse

/-- Worker for `splitOnBytes`; the fuel argument makes the recursion
structural (each step consumes at least one input byte when the separator is
nonempty, so `l.length + 1` fuel is always enough). -/
def splitOnBytesAux (sep : List Char) : ℕ → List Char → List Char → List (List Char)
  | 0, l, acc => [acc.reverse ++ l]
  | _ + 1, [], acc => [acc.reverse]
  | fuel + 1, c :: rest, acc =>
    if sep.isPrefixOf (c :: rest) then
      acc.reverse :: splitOnBytesAux sep fuel (rest.drop (sep.length - 1)) []
    else
      splitOnBytesAux sep fuel rest (c :: acc)

/-- Python `b.split(sep)` for a nonempty separator: non-overlapping,
left-to-right splitting, keeping empty pieces. -/
def splitOnBytes (l sep : List Char) : List (List Char) :=
  splitOnBytesAux sep (l.length + 1) l []

/-- Python `sub in b`: substring membership, via `splitOnBytes` producing at
least two pieces.  Only used with nonempty `sub`. -/
def containsBytes (l sub : List Char) : Bool :=
  match splitOnBytes l sub with
  | _ :: _ :: _ => true
  | _ => false

/-- Python `b.split(sep, 1)`: split only at the first occurrence, the second
component keeping any later occurrences of the separator. -/
def splitOnceBytes (l sep : List Char) : List Char × List Char :=
  match splitOnBytes l sep with
  | [] => (l, [])
  | [a] => (a, [])
  | a :: rest => (a, List.intercalate sep rest)

/-! ### MultipartDecoder: `TranscriptionHandler.parse_multipart`
(`api_server.py:157-208`) -/

/-- A parsed form field: `result[name] = content` stores raw bytes for a part
with a `filename=` parameter, and the UTF-8-decoded, stripped text otherwise
(`api_server.py:200-205`).  UTF-8 decoding with `errors=replace` is the
identity on the character-list model. -/
inductive FormValue where
  | fileV (content : List Char)
  | textV (s : List Char)
deriving DecidableEq

/-- Boundary extraction loop of `parse_multipart` (`api_server.py:159-164`):
split the `Content-Type` value on `;`, strip each piece, take the first one
starting with `boundary=`, drop those 9 characters and strip quotes. -/
def extractBoundary (contentType : List Char) : Option (List Char) :=
  (splitOnBytes contentType [';']).findSome? (fun part =>
    let p := pyStrip part
    if ("boundary=".data).isPrefixOf p then some (stripQuotes (p.drop 9)) else none)

/-- Content-Disposition scan of `parse_multipart` (`api_server.py:191-197`):
walk every header line; on a line whose lowercasing starts with
`content-disposition:`, split on `;`, record the last `name=` value (quotes
stripped) and whether any item starts with `filename=`. -/
def parseContentDisposition (headerSection : List Char) : Option (List Char) × Bool :=
  (splitOnBytes headerSection ("\r\n".data)).foldl (fun acc line =>
    if ("content-disposition:".data).isPrefixOf (line.map Char.toLower) then
      (splitOnBytes line [';']).foldl (fun acc2 item =>
        let it := pyStrip item
        let acc3 :=
          if ("name=".data).isPrefixOf it then (some (stripQuotes (it.drop 5)), acc2.2)
          else acc2
        if ("filename=".data).isPrefixOf it then (acc3.1, true) else acc3) acc
    else acc) (none, false)

/-- Python `result[name] = v` on an insertion-ordered dict: overwrite in place
when the key exists, append otherwise. -/
def dictSet (d : List (String × FormValue)) (k : String) (v : FormValue) :
    List (String × FormValue) :=
  if d.any (fun p => p.1 = k) then d.map (fun p => if p.1 = k then (k, v) else p)
  else d ++ [(k, v)]

/-- Python `d.get(k)` / `k in d`. -/
def dictGet (d : List (String × FormValue)) (k : String) : Option FormValue :=
  (d.find? (fun p => p.1 = k)).map (fun p => p.2)

/-- Processing of one multipart segment, i.e. one iteration of the `for part
in parts` loop of `parse_multipart` (`api_server.py:175-206`): skip empty and
terminal segments, strip one leading and one trailing CRLF, skip segments
without a blank-line separator, then classify by `Content-Disposition`. -/
def processPart (result : List (String × FormValue)) (part : List Char) :
    List (String × FormValue) :=
  if part = [] ∨ part = "--\r\n".data ∨ pyStrip part = "--".data then result
  else
    let part1 := if ("\r\n".data).isPrefixOf part then part.drop 2 else part
    let part2 := if ("\r\n".data).isSuffixOf part1 then dropRightN part1 2 else part1
    if containsBytes part2 ("\r\n\r\n".data) = false then result
    else
      let hc := splitOnceBytes part2 ("\r\n\r\n".data)
      let nf := parseContentDisposition hc.1
      match nf.1 with
      | none => result
      | some nm =>
        if nm = [] then result
        else
          dictSet result (String.mk nm)
            (if nf.2 then FormValue.fileV hc.2 else FormValue.textV (pyStrip hc.2))

/-- `TranscriptionHandler.parse_multipart` (`api_server.py:157-208`): extract
the boundary (raising `ValueError` when absent or empty — Python's
`if not boundary`), split the body on `--boundary`, and fold every segment
into the result dict. -/
def parse_multipart (body contentType : List Char) :
    Except PyErr (List (String × FormValue)) :=
  match extractBoundary contentType with
  | none => .error (.valueError "No boundary found in Content-Type")
  | some boundary =>
    if boundary = [] then .error (.valueError "No boundary found in Content-Type")
    else
      let boundaryBytes := '-' :: '-' :: boundary
      let parts := splitOnBytes body boundaryBytes
      .ok (parts.foldl processPart [])

/-! ### AudioNormalizer: decode, downmix, resample
(`api_server.py:110-125`) -/

/-- Result of `sf.read(io.BytesIO(audio_bytes))` (`api_server.py:110`): a 1-D
array of mono samples, or a 2-D array (one row of channel values per frame)
for multi-channel audio.  Sample values are modelled in exact rational
arithmetic. -/
inductive Decoded where
  | mono (samples : List ℚ)
  | multi (frames : List (List ℚ))

/-- Arithmetic mean of one frame's channel values (`audio_data.mean(axis=1)`
for one row). -/
def meanList (l : List ℚ) : ℚ := l.sum / (l.length : ℚ)

/-- Downmix step (`api_server.py:112-113`): a 2-D array is reduced to mono by
the per-frame arithmetic mean of all channels; a 1-D array is untouched. -/
def toMono : Decoded → List ℚ
  | .mono samples => samples
  | .multi frames => frames.map meanList

/-- NumPy `np.linspace(a, b, m)` with the default `endpoint=True`: `m` evenly
spaced values from `a` to `b` INCLUSIVE (`b` itself is the last value when
`m ≥ 2`). -/
def linspace (a b : ℚ) (m : ℕ) : List ℚ :=
  if m = 0 then []
  else if m = 1 then [a]
  else (List.range m).map (fun i => a + (b - a) * (i : ℚ) / ((m : ℚ) - 1))

/-- NumPy `np.interp` at one position `x` against the integer grid
`xp = np.arange(fp.length)`: clamp to the first value for `x ≤ 0` and to the
last value for `x ≥ length - 1`, linear interpolation between the two
neighbouring grid points otherwise. -/
def interpGrid (fp : List ℚ) (x : ℚ) : ℚ :=
  if x ≤ 0 then fp.headD 0
  else if ((fp.length : ℚ) - 1) ≤ x then fp.getLastD 0
  else
    let k : ℕ := (⌊x⌋).toNat
    let a := fp.getD k 0
    let b := fp.getD (k + 1) 0
    a + (x - (k : ℚ)) * (b - a)

/-- NumPy `np.interp(xs, np.arange(fp.length), fp)`: raises `ValueError` when
the grid `fp` is empty, otherwise interpolates each position. -/
def npInterp (xs : List ℚ) (fp : List ℚ) : Except PyErr (List ℚ) :=
  if fp.length = 0 then .error (.valueError "array of sample points is empty")
  else .ok (xs.map (interpGrid fp))

/-- Resampling step (`api_server.py:117-123`): `duration = len / rate`,
`target_length = int(duration * 16000)` — Python `int()` truncates toward
zero, which is the floor for the nonnegative durations arising here — then
`np.interp(np.linspace(0, len, target_length), np.arange(len), samples)`.
The caller guarantees `rate > 0` (a sound file's sample rate is positive). -/
def resample (samples : List ℚ) (rate : ℕ) : Except PyErr (List ℚ) :=
  let n : ℕ := samples.length
  let duration : ℚ := (n : ℚ) / (rate : ℚ)
  let targetLength : ℕ := (⌊duration * 16000⌋).toNat
  npInterp (linspace 0 (n : ℚ) targetLength) samples

/-- The complete normalization pipeline (`api_server.py:112-125`): downmix to
mono, then resample when the native rate differs from 16000.  The second
component records the resulting buffer's sample rate (16000 after resampling,
the untouched native rate otherwise).  The final `astype(np.float32)` is the
identity on the exact-arithmetic model and preserves length. -/
def audioNormalize (dec : Decoded) (rate : ℕ) : Except PyErr (List ℚ × ℕ) :=
  let samples := toMono dec
  if rate ≠ 16000 then
    match resample samples rate with
    | .error e => .error e
    | .ok res => .ok (res, 16000)
  else .ok (samples, rate)

/-! ### TranscriptionRequestBuilder: field extraction and validation
(`api_server.py:95-108`) -/

/-- Digit-list value, most significant first (total; validity is checked
separately). -/
def digitsVal (l : List Char) : ℕ := l.foldl (fun n c => 10 * n + (c.toNat - 48)) 0

/-- Nonempty all-digit parse. -/
def digitsToNat (l : List Char) : Option ℕ :=
  if l ≠ [] ∧ l.all Char.isDigit then some (digitsVal l) else none

/-- Python `int(s)` on the strings that occur here: optional sign and decimal
digits, surrounding whitespace ignored (underscores, bases and other Python
forms are not needed by any claim). -/
def parsePyInt (l : List Char) : Option Int :=
  let t := pyStrip l
  match t with
  | '-' :: rest => (digitsToNat rest).map (fun n => -(n : Int))
  | '+' :: rest => (digitsToNat rest).map (fun n => (n : Int))
  | _ => (digitsToNat t).map (fun n => (n : Int))

/-- Python `float(s)` on plain decimal strings: optional sign, digits, an
optional point (exponents, `inf`/`nan` and underscores are not needed by any
claim; no claim depends on which well-formed decimals are accepted). -/
def parseDecimal (l : List Char) : Option ℚ :=
  let t := pyStrip l
  let st : ℚ × List Char :=
    match t with
    | '-' :: rest => (-1, rest)
    | '+' :: rest => (1, rest)
    | _ => (1, t)
  match splitOnBytes st.2 ['.'] with
  | [ip] => (digitsToNat ip).map (fun n => st.1 * n)
  | [ip, fp] =>
    if ip = [] ∧ fp = [] then none
    else if ip.all Char.isDigit ∧ fp.all Char.isDigit then
      some (st.1 * ((digitsVal ip : ℚ) + (digitsVal fp : ℚ) / (10 : ℚ) ^ fp.length))
    else none
  | _ => none

/-- Python `float(value)` on a form value (`api_server.py:107`): Python 3's
`float()` accepts `bytes` as well as `str` (`float(b"0.5")` is `0.5`), so a
file part's raw-bytes value and a text value are parsed the same way, and
either raises `ValueError` when the content is not a well-formed number. -/
def pyFloat : FormValue → Except PyErr ℚ
  | .fileV c =>
    match parseDecimal c with
    | some q => .ok q
    | none => .error (.valueError "could not convert string to float")
  | .textV s =>
    match parseDecimal s with
    | some q => .ok q
    | none => .error (.valueError "could not convert string to float")

/-- Temperature handling (`api_server.py:105-108`): absent stays absent; a
present value goes through `float()`, with `except ValueError` turning a parse
failure into absent — but a `TypeError` (bytes value) propagates. -/
def parseTemperature : Option FormValue → Except PyErr (Option ℚ)
  | none => .ok none
  | some v =>
    match pyFloat v with
    | .ok q => .ok (some q)
    | .error e => if e.isValueError then .ok none else .error e

/-- Wrapping of the file field's value in `io.BytesIO(audio_bytes)`
(`api_server.py:110`): raw bytes pass through; a text value (a `str`) makes
`io.BytesIO` raise `TypeError`. -/
def valueBytes : FormValue → Except PyErr (List Char)
  | .fileV c => .ok c
  | .textV _ => .error (.typeError "a bytes-like object is required, not str")

/-! ### Dispatcher / Gateway: `TranscriptionHandler.handle_transcription`
(`api_server.py:78-155`) -/

/-- The incoming request as the handler sees it: the two headers it consults
(`self.headers.get` is case-insensitive, so the fields stand for the looked-up
values, `none` when the header is absent) and the connection's readable byte
stream. -/
structure Request where
  contentType : Option (List Char)
  contentLength : Option (List Char)
  bodyStream : List Char

/-- Python `int(self.headers.get(..., 0))` (`api_server.py:90`): the integer
default `0` is returned unchanged when the header is absent; a present header
is a string parsed by `int()`, raising `ValueError` when malformed. -/
def pyIntOpt : Option (List Char) → Except PyErr Int
  | none => .ok 0
  | some s =>
    match parsePyInt s with
    | some n => .ok n
    | none => .error (.valueError "invalid literal for int() with base 10")

/-- Body read (`api_server.py:90-91`): `self.rfile.read(content_length)`
returns the first `content_length` bytes available on the connection (all of
them when fewer are available, everything on a negative count). -/
def readBody (contentLength : Option (List Char)) (stream : List Char) :
    Except PyErr (List Char) :=
  match pyIntOpt contentLength with
  | .error e => .error e
  | .ok n => .ok (if n < 0 then stream else stream.take n.toNat)

/-- Observable outcome of `handle_transcription`: either an HTTP response was
written without consulting the engine (`response status message`, the message
being wrapped in the OpenAI JSON error envelope by `send_error_response`), or
`self.local_model.transcribe` was invoked (`invoke`), carrying the audio
buffer and the optional request fields passed to it.  What happens after the
engine returns is outside every claim. -/
inductive HandlerOutcome where
  | response (status : ℕ) (message : String)
  | invoke (audio : List ℚ) (language : Option FormValue) (prompt : Option FormValue)
      (temperature : Option ℚ)

/-- Body of the `try` block of `handle_transcription` (`api_server.py:89-145`)
up to the engine call, sequencing exactly as the source: read the body, parse
the multipart form, 400 when `file` is absent, convert `temperature`, decode
the audio, downmix and resample.  `sfRead` stands for the external
`soundfile.read` decoder applied to the uploaded bytes. -/
def handleTryBlock (sfRead : List Char → Except PyErr (Decoded × ℕ))
    (contentType : List Char) (contentLength : Option (List Char))
    (stream : List Char) : Except PyErr HandlerOutcome :=
  match readBody contentLength stream with
  | .error e => .error e
  | .ok body =>
    match parse_multipart body contentType with
    | .error e => .error e
    | .ok formData =>
      if dictGet formData "file" = none then
        .ok (.response 400 "Missing required field: file")
      else
        let audioVal := (dictGet formData "file").getD (FormValue.textV [])
        let language := dictGet formData "language"
        let prompt := dictGet formData "prompt"
        match parseTemperature (dictGet formData "temperature") with
        | .error e => .error e
        | .ok temperature =>
          match valueBytes audioVal with
          | .error e => .error e
          | .ok audioBytes =>
            match sfRead audioBytes with
            | .error e => .error e
            | .ok dr =>
              match audioNormalize dr.1 dr.2 with
              | .error e => .error e
              | .ok audio => .ok (.invoke audio.1 language prompt temperature)

/-- `TranscriptionHandler.handle_transcription` (`api_server.py:78-155`):
503 when no engine handle was injected, 400 when the `Content-Type` does not
contain `multipart/form-data`, then the `try` block; any exception escaping
the `try` block is caught by `except Exception` and reported as
`500 Transcription failed: str(e)`. -/
def handle_transcription (localModel : Bool)
    (sfRead : List Char → Except PyErr (Decoded × ℕ)) (req : Request) :
    HandlerOutcome :=
  if localModel = false then .response 503 "Local model not available"
  else
    let contentType := req.contentType.getD []
    if containsBytes contentType ("multipart/form-data".data) = false then
      .response 400 "Content-Type must be multipart/form-data"
    else
      match handleTryBlock sfRead contentType req.contentLength req.bodyStream with
      | .ok out => out
      | .error e => .response 500 ("Transcription failed: " ++ e.str)

/-- HTTP status of an outcome (`none` when the engine was invoked and no
response has been written yet). -/
def statusOf : HandlerOutcome → Option ℕ
  | .response s _ => some s
  | .invoke _ _ _ _ => none

/-! ### Spec-worded resampler variants (for comparison with `resample`) -/

/-- Rounding to the nearest integer as Mathlib's `round` (half rounds up; the
instances below never hit an exact half, so the tie-breaking rule is
irrelevant). -/
def roundQ (q : ℚ) : ℤ := round q

/-- The resampler EXACTLY as claim C3 words it (this follows the claim, not
the source): `target_length = round(duration * 16000)` and `target_length`
evenly spaced positions across `[0, len(samples))` EXCLUSIVE of
`len(samples)`, i.e. position `i` is `i * len / target_length`. -/
def resampleClaimC3 (samples : List ℚ) (rate : ℕ) : List ℚ :=
  let n : ℕ := samples.length
  let duration : ℚ := (n : ℚ) / (rate : ℚ)
  let targetLength : ℕ := (roundQ (duration * 16000)).toNat
  ((List.range targetLength).map (fun i => (i : ℚ) * (n : ℚ) / (targetLength : ℚ))).map
    (interpGrid samples)

/-- The resampler as the AMENDED claim C3 words it (this follows the amended
claim, not the source): `target_length = int(duration * 16000)` (truncation,
the floor for these nonnegative values) and `target_length` evenly spaced
positions from `0` to `len(samples)` INCLUSIVE (position `i` is
`i * len / (target_length - 1)` when `target_length ≥ 2`). -/
def resampleSpecFixed (samples : List ℚ) (rate : ℕ) : List ℚ :=
  let n : ℕ := samples.length
  let duration : ℚ := (n : ℚ) / (rate : ℚ)
  let targetLength : ℕ := (⌊duration * 16000⌋).toNat
  ((List.range targetLength).map
    (fun i => if targetLength ≤ 1 then 0 else (i : ℚ) * (n : ℚ) / ((targetLength : ℚ) - 1))).map
    (interpGrid samples)

/-! ### ServerLifecycle: `APIServer.start` / `APIServer.stop`
(`api_server.py:211-244`) -/

/-- The mutable state of an `APIServer` object: `self.server` (the
`ThreadingHTTPServer` instance or `None`) and `self.thread` (the serving
thread or `None`); both are `None` after `__init__`.  The server is Running
exactly when `server` is present.  Handles are modelled as numeric tags. -/
structure APIServerState where
  server : Option ℕ
  thread : Option ℕ
deriving DecidableEq

/-- `APIServer.start` (`api_server.py:221-236`): `if self.server: return`
(no-op while Running); otherwise construct `ThreadingHTTPServer` — modelled by
`bindResult`, `some h` on a successful bind and `none` when the constructor
raises `OSError` — and on success store the server and start the serving
thread; on `OSError` set `self.server = None` and leave `self.thread` as it
was. -/
def APIServer.start (s : APIServerState) (bindResult : Option ℕ) : APIServerState :=
  if s.server.isSome then s
  else
    match bindResult with
    | some h => ⟨some h, some h⟩
    | none => ⟨none, s.thread⟩

/-- `APIServer.stop` (`api_server.py:238-244`): `if self.server:` shut down
and clear both fields, otherwise do nothing. -/
def APIServer.stop (s : APIServerState) : APIServerState :=
  if s.server.isSome then ⟨none, none⟩ else s

/-! ### Concurrency model of the threaded listener
(`api_server.py:144, 229-232`)

`APIServer.start` builds a `ThreadingHTTPServer`, which runs every accepted
connection's `handle_transcription` on its own thread.  Neither
`TranscriptionHandler` nor `APIServer` contains a lock, semaphore, or queue:
in particular `self.local_model.transcribe(**transcribe_kwargs)`
(`api_server.py:144`) is called with no synchronization.  The interleaving
relation below therefore lets either connection's thread take its next
program step regardless of the other thread's phase. -/

/-- Phases of `handle_transcription` for one connection's thread: reading the
body (`rfile.read`, line 91), parsing the form (line 93), being inside the
engine call `local_model.transcribe` (line 144, the in-flight span), and
having written the response. -/
inductive Phase where
  | idle
  | reading
  | parsing
  | transcribing
  | responded
deriving DecidableEq

/-- Program order of one handler thread (`api_server.py:89-151`). -/
inductive phaseStep : Phase → Phase → Prop
  | read : phaseStep .idle .reading
  | parse : phaseStep .reading .parsing
  | callEngine : phaseStep .parsing .transcribing
  | respond : phaseStep .transcribing .responded

/-- Joint state of two concurrently accepted connections. -/
structure TwoConnState where
  c1 : Phase
  c2 : Phase
deriving DecidableEq

/-- One scheduler step of `ThreadingHTTPServer`: either connection's thread
advances.  No guard involves the other thread, because the handler acquires
no lock anywhere. -/
inductive serverStep : TwoConnState → TwoConnState → Prop
  | left : ∀ {p q r}, phaseStep p q → serverStep ⟨p, r⟩ ⟨q, r⟩
  | right : ∀ {p q r}, phaseStep p q → serverStep ⟨r, p⟩ ⟨r, q⟩

/-- Reflexive-transitive closure of `serverStep`. -/
inductive reachableFrom (s : TwoConnState) : TwoConnState → Prop
  | refl : reachableFrom s s
  | step : ∀ {t u}, reachableFrom s t → serverStep t u → reachableFrom s u

/-- The property claim C1 asserts: along every execution of two concurrent
transcription requests, at most one `transcribe` call is in flight at any
time. -/
def engineSerialized : Prop :=
  ∀ t, reachableFrom ⟨.idle, .idle⟩ t → ¬(t.c1 = .transcribing ∧ t.c2 = .transcribing)

/-! ### Concrete fixtures used by counterexamples and witnesses -/

/-- A `Content-Type` value with a boundary parameter. -/
def ctX : List Char := "multipart/form-data; boundary=X".data

/-- A multipart body holding exactly one part: a file field named `file`
carrying the bytes `DATA` (83 bytes long). -/
def bodyFileOnly : List Char :=
  "--X\r\nContent-Disposition: form-data; name=\"file\"; filename=\"a.wav\"\r\n\r\nDATA\r\n--X--\r\n".data

/-- A multipart body with a `file` file part and a `temperature` part that is
itself sent as a file part (its `Content-Disposition` carries `filename=`),
so its parsed value is raw bytes (165 bytes long). -/
def bodyTempFile : List Char :=
  ("--X\r\nContent-Disposition: form-data; name=\"file\"; filename=\"a.wav\"\r\n\r\nDATA\r\n--X\r\n" ++
   "Content-Disposition: form-data; name=\"temperature\"; filename=\"t.txt\"\r\n\r\n0.5\r\n--X--\r\n").data

/-- A multipart body whose only part is a text field named `language` (no
`file` field; 67 bytes long). -/
def bodyNoFile : List Char :=
  "--X\r\nContent-Disposition: form-data; name=\"language\"\r\n\r\nen\r\n--X--\r\n".data

/-- A stub engine-side decoder: one mono sample at 16 kHz (never reached by
the requests it is used with). -/
def stubDecode : List Char → Except PyErr (Decoded × ℕ) := fun _ => .ok (.mono [1], 16000)

/-- A stub decoder producing a ZERO-LENGTH mono buffer at the given native
sample rate — e.g. `soundfile.read` on a valid WAV file with zero frames. -/
def emptyDecodeAt (rate : ℕ) : List Char → Except PyErr (Decoded × ℕ) :=
  fun _ => .ok (.mono [], rate)

/-! ## Helper lemmas -/

/-- Reading the body of a request with no `Content-Length` header consumes
zero bytes, whatever is waiting on the connection. -/
theorem readBody_none (stream : List Char) : readBody none stream = Except.ok [] := by
  simp [readBody, pyIntOpt]

/-- Splitting an empty byte string yields one empty piece, whatever the
separator (as Python's `b.split`). -/
theorem splitOnBytes_nil (sep : List Char) : splitOnBytes [] sep = [[]] := rfl

/-- Parsing an empty body against any `Content-Type` that does carry a
nonempty boundary yields an empty field mapping. -/
theorem parse_multipart_nil (ct b : List Char) (hb : extractBoundary ct = some b)
    (hbne : b ≠ []) : parse_multipart [] ct = Except.ok [] := by
  simp only [parse_multipart, hb]
  rw [if_neg hbne]
  rfl

/-- Normalizing a zero-length decode at a native rate other than 16000 fails:
the resampler calls `np.interp` with an empty sample-point array, which
raises `ValueError`. -/
theorem audioNormalize_empty (r : ℕ) (hne : r ≠ 16000) :
    audioNormalize (Decoded.mono []) r =
      Except.error (PyErr.valueError "array of sample points is empty") := by
  simp [audioNormalize, toMono, hne, resample, npInterp]

/-- Evaluation of the handler on the concrete single-file request down to the
two external steps that cannot be computed away: the decoder applied to the
uploaded bytes, and normalization of its output. -/
theorem handler_fileOnly (sfRead : List Char → Except PyErr (Decoded × ℕ)) :
    handle_transcription true sfRead ⟨some ctX, some ("83".data), bodyFileOnly⟩ =
      (match (match sfRead ("DATA".data) with
              | Except.error e => Except.error e
              | Except.ok dr =>
                match audioNormalize dr.1 dr.2 with
                | Except.error e => Except.error e
                | Except.ok audio =>
                  Except.ok (HandlerOutcome.invoke audio.1 none none none)) with
       | Except.ok out => out
       | Except.error e =>
         HandlerOutcome.response 500 ("Transcription failed: " ++ PyErr.str e)) := rfl

/-- `np.linspace(0, b, m)` written positionwise: position `i` is
`i * b / (m - 1)` when `m ≥ 2` (so the endpoint `b` is included), and the
sole position is `0` when `m = 1`. -/
theorem linspace_zero (b : ℚ) (m : ℕ) :
    linspace 0 b m = (List.range m).map
      (fun i => if m ≤ 1 then 0 else (i : ℚ) * b / ((m : ℚ) - 1)) := by
  match m with
  | 0 => simp [linspace]
  | 1 =>
    rw [linspace]
    norm_num [List.range_succ]
  | (n + 2) =>
    rw [linspace]
    rw [if_neg (by omega), if_neg (by omega)]
    apply List.map_congr_left
    intro i _
    rw [if_neg (by omega)]
    push_cast
    ring

/-! ## Claim theorems -/

/-- Claim C1 (code_bug exhibit): the threaded server serializes nothing
around the engine.  From both connections idle, the state in which BOTH
threads are simultaneously inside `local_model.transcribe` is reachable, so
the serialization property `engineSerialized` that the claim asserts is
false.  The code has no lock; the spec itself (§9) records that the original
code lacks one. -/
theorem c1_engine_calls_overlap :
    reachableFrom ⟨Phase.idle, Phase.idle⟩ ⟨Phase.transcribing, Phase.transcribing⟩ ∧
      ¬engineSerialized := by
  have h1 : reachableFrom (⟨Phase.idle, Phase.idle⟩ : TwoConnState) ⟨Phase.reading, Phase.idle⟩ :=
    .step .refl (.left .read)
  have h2 : reachableFrom (⟨Phase.idle, Phase.idle⟩ : TwoConnState) ⟨Phase.parsing, Phase.idle⟩ :=
    .step h1 (.left .parse)
  have h3 : reachableFrom (⟨Phase.idle, Phase.idle⟩ : TwoConnState)
      ⟨Phase.transcribing, Phase.idle⟩ := .step h2 (.left .callEngine)
  have h4 : reachableFrom (⟨Phase.idle, Phase.idle⟩ : TwoConnState)
      ⟨Phase.transcribing, Phase.reading⟩ := .step h3 (.right .read)
  have h5 : reachableFrom (⟨Phase.idle, Phase.idle⟩ : TwoConnState)
      ⟨Phase.transcribing, Phase.parsing⟩ := .step h4 (.right .parse)
  have h6 : reachableFrom (⟨Phase.idle, Phase.idle⟩ : TwoConnState)
      ⟨Phase.transcribing, Phase.transcribing⟩ := .step h5 (.right .callEngine)
  exact ⟨h6, fun hs => hs _ h6 ⟨rfl, rfl⟩⟩

/-- Claim C2 counterexample: a POST whose `Content-Type` is exactly
`multipart/form-data` (no `boundary=`) is answered with HTTP 500
`Transcription failed: No boundary found in Content-Type` — not with the
HTTP 400 the claim asserts — because `parse_multipart` raises `ValueError`
inside the `try` block and the blanket `except Exception` maps every
exception to 500. -/
theorem c2_counterexample :
    handle_transcription true stubDecode ⟨some ("multipart/form-data".data), none, []⟩ =
        HandlerOutcome.response 500 "Transcription failed: No boundary found in Content-Type" ∧
      statusOf (handle_transcription true stubDecode
        ⟨some ("multipart/form-data".data), none, []⟩) ≠ some 400 :=
  ⟨rfl, by decide⟩

/-- Claim C2 as amended: for every request whose `Content-Type` contains
`multipart/form-data` but yields no (or an empty) `boundary=` parameter —
whatever `Content-Length` it carries and whatever body is read — the
operation fails with HTTP 500 and message
`Transcription failed: No boundary found in Content-Type` in the JSON error
envelope (the `ValueError` raised by `parse_multipart` is caught by the
handler's blanket `except Exception`, not mapped to 400). -/
theorem c2_no_boundary_500 (ct stream body : List Char) (cl : Option (List Char))
    (sfRead : List Char → Except PyErr (Decoded × ℕ))
    (hmp : containsBytes ct ("multipart/form-data".data) = true)
    (hread : readBody cl stream = Except.ok body)
    (hb : extractBoundary ct = none ∨ extractBoundary ct = some []) :
    handle_transcription true sfRead ⟨some ct, cl, stream⟩ =
      HandlerOutcome.response 500 "Transcription failed: No boundary found in Content-Type" := by
  simp only [handle_transcription, Option.getD, hmp]
  simp only [handleTryBlock, hread]
  rcases hb with hb | hb <;> simp [parse_multipart, hb, PyErr.str]

/-- Witness for `c2_no_boundary_500` at `Content-Type` value
`multipart/form-data; boundary=` (an empty boundary, Python-falsy), on a
request carrying `Content-Length: 4` and a 4-byte body. -/
theorem c2_no_boundary_500_witness :
    containsBytes ("multipart/form-data; boundary=".data) ("multipart/form-data".data) = true ∧
    readBody (some ("4".data)) ("AAAA".data) = Except.ok ("AAAA".data) ∧
    extractBoundary ("multipart/form-data; boundary=".data) = some [] ∧
    handle_transcription true stubDecode
        ⟨some ("multipart/form-data; boundary=".data), some ("4".data), "AAAA".data⟩ =
      HandlerOutcome.response 500 "Transcription failed: No boundary found in Content-Type" :=
  ⟨rfl, rfl, rfl, c2_no_boundary_500 ("multipart/form-data; boundary=".data) ("AAAA".data)
    ("AAAA".data) (some ("4".data)) stubDecode rfl rfl (Or.inr rfl)⟩

/-- Claim C3 counterexample.  First input: one sample at 9000 Hz.  The code
computes `int(16000/9000) = 1` interpolation position and returns a
one-sample buffer, while the claim's `round` gives `target_length = 2` (the
claimed output has a different length).  Second input: two samples `[0, 6]`
at 8000 Hz, `target_length = 4` either way; the code's `np.linspace`
positions include the endpoint `2` and produce `[0, 4, 6, 6]`, while the
claim's positions, evenly spaced across `[0, 2)` exclusive, produce
`[0, 3, 6, 6]` — the values differ at index 1. -/
theorem c3_counterexample :
    (resample [(5 : ℚ)] 9000 = Except.ok [5] ∧ resampleClaimC3 [(5 : ℚ)] 9000 = [5, 5] ∧
      ([5] : List ℚ).length ≠ ([5, 5] : List ℚ).length) ∧
    (resample [(0 : ℚ), 6] 8000 = Except.ok [0, 4, 6, 6] ∧
      resampleClaimC3 [(0 : ℚ), 6] 8000 = [0, 3, 6, 6] ∧ ((4 : ℚ) ≠ 3)) := by
  refine ⟨⟨?_, ?_, by decide⟩, ⟨?_, ?_, by norm_num⟩⟩
  · norm_num [resample, npInterp, linspace, interpGrid]
  · have h : (roundQ (((List.length [(5 : ℚ)] : ℚ)) / ((9000 : ℕ) : ℚ) * 16000)).toNat = 2 := by
      norm_num [roundQ, round_eq]
      rfl
    simp only [resampleClaimC3]
    rw [h]
    norm_num [interpGrid, List.range_succ]
  · have h : (⌊((List.length [(0 : ℚ), 6] : ℚ)) / ((8000 : ℕ) : ℚ) * 16000⌋).toNat = 4 := by
      norm_num
      rfl
    simp only [resample, npInterp, linspace]
    rw [h]
    norm_num [interpGrid, List.range_succ]
  · have h : (roundQ (((List.length [(0 : ℚ), 6] : ℚ)) / ((8000 : ℕ) : ℚ) * 16000)).toNat = 4 := by
      norm_num [roundQ, round_eq]
      rfl
    simp only [resampleClaimC3]
    rw [h]
    norm_num [interpGrid, List.range_succ]

/-- Claim C3 as amended: for every nonempty decoded sample sequence, the
resampler computes `duration = len(samples) / native_sample_rate` and
`target_length = int(duration * 16000)` — truncation, the floor of the
nonnegative product, not `round` — and linearly interpolates at
`target_length` evenly spaced positions from `0` to `len(samples)`
INCLUSIVE of the endpoint (`np.linspace` keeps the endpoint; positions past
index `len(samples) - 1` clamp to the last sample). -/
theorem c3_resample_truncation_inclusive (samples : List ℚ) (rate : ℕ)
    (h : samples ≠ []) :
    resample samples rate = Except.ok (resampleSpecFixed samples rate) := by
  unfold resample resampleSpecFixed npInterp
  rw [if_neg (by simpa using h)]
  rw [linspace_zero]

/-- Witness for `c3_resample_truncation_inclusive` on the two-sample buffer
`[0, 6]` at 8000 Hz. -/
theorem c3_resample_truncation_inclusive_witness :
    ([(0 : ℚ), 6] ≠ []) ∧
    resample [(0 : ℚ), 6] 8000 = Except.ok (resampleSpecFixed [(0 : ℚ), 6] 8000) :=
  ⟨by decide, c3_resample_truncation_inclusive [(0 : ℚ), 6] 8000 (by decide)⟩

/-- Claim C4 counterexample: a request whose uploaded file decodes to a
ZERO-LENGTH mono buffer at native rate 16000 skips the resampler entirely and
the engine's `transcribe` IS invoked with the empty buffer — the handler has
no length check, so the `length > 0` invariant the claim asserts is not
enforced. -/
theorem c4_counterexample :
    handle_transcription true (emptyDecodeAt 16000)
        ⟨some ctX, some ("83".data), bodyFileOnly⟩ =
      HandlerOutcome.invoke [] none none none ∧ ([] : List ℚ).length = 0 :=
  ⟨rfl, rfl⟩

/-- Claim C4 as amended: a zero-length decode is kept away from the engine
only when the native rate differs from 16000 — the resampler's `np.interp`
raises `ValueError` on the empty sample array and the request fails with
HTTP 500 — whereas at native rate 16000 the empty buffer is submitted
unchanged (see the counterexample); the code never enforces `length > 0`
itself. -/
theorem c4_empty_decode_500_when_resampling (r : ℕ) (_hr : 0 < r) (hne : r ≠ 16000) :
    handle_transcription true (emptyDecodeAt r) ⟨some ctX, some ("83".data), bodyFileOnly⟩ =
      HandlerOutcome.response 500 "Transcription failed: array of sample points is empty" := by
  rw [handler_fileOnly (emptyDecodeAt r)]
  show (match (match audioNormalize (Decoded.mono []) r with
              | Except.error e => Except.error e
              | Except.ok audio =>
                Except.ok (HandlerOutcome.invoke audio.1 none none none)) with
       | Except.ok out => out
       | Except.error e =>
         HandlerOutcome.response 500 ("Transcription failed: " ++ PyErr.str e)) = _
  rw [audioNormalize_empty r hne]
  rfl

/-- Witness for `c4_empty_decode_500_when_resampling` at native rate 8000. -/
theorem c4_empty_decode_500_when_resampling_witness :
    (0 < 8000 ∧ 8000 ≠ 16000) ∧
    handle_transcription true (emptyDecodeAt 8000)
        ⟨some ctX, some ("83".data), bodyFileOnly⟩ =
      HandlerOutcome.response 500 "Transcription failed: array of sample points is empty" :=
  ⟨⟨by decide, by decide⟩, c4_empty_decode_500_when_resampling 8000 (by decide) (by decide)⟩

/-- Claim C5: whenever the multipart body of a transcription POST parses to a
field mapping with no field named `file`, the handler responds HTTP 400 with
message `Missing required field: file` (wrapped in the JSON error envelope by
`send_error_response`). -/
theorem c5_missing_file_400 (ct stream body : List Char) (cl : Option (List Char))
    (d : List (String × FormValue)) (sfRead : List Char → Except PyErr (Decoded × ℕ))
    (hmp : containsBytes ct ("multipart/form-data".data) = true)
    (hread : readBody cl stream = Except.ok body)
    (hparse : parse_multipart body ct = Except.ok d)
    (hfile : dictGet d "file" = none) :
    handle_transcription true sfRead ⟨some ct, cl, stream⟩ =
      HandlerOutcome.response 400 "Missing required field: file" := by
  simp only [handle_transcription, Option.getD, hmp]
  simp only [handleTryBlock, hread, hparse, hfile]
  simp

/-- Witness for `c5_missing_file_400`: a body whose only field is a text
field `language`. -/
theorem c5_missing_file_400_witness :
    parse_multipart bodyNoFile ctX =
        Except.ok [("language", FormValue.textV ("en".data))] ∧
    dictGet [("language", FormValue.textV ("en".data))] "file" = none ∧
    handle_transcription true stubDecode ⟨some ctX, some ("67".data), bodyNoFile⟩ =
      HandlerOutcome.response 400 "Missing required field: file" :=
  ⟨rfl, rfl, c5_missing_file_400 ctX bodyNoFile bodyNoFile (some ("67".data))
    [("language", FormValue.textV ("en".data))] stubDecode rfl rfl rfl rfl⟩

/-- Claim C6: a mono decode at native rate 16000 passes through the
normalization steps untouched — no downmix, no resampling — so the buffer
reaching the engine has the same samples (hence the same sample count) and
the same sample rate as the input. -/
theorem c6_mono_16k_identity (samples : List ℚ) :
    audioNormalize (Decoded.mono samples) 16000 = Except.ok (samples, 16000) := by
  simp [audioNormalize, toMono]

/-- Claim C7: multi-channel audio is downmixed by the per-frame arithmetic
mean; for a stereo buffer of any length whose channel A is silence and
channel B the constant `v`, every downmixed sample equals `v / 2`. -/
theorem c7_stereo_downmix_half (v : ℚ) (n : ℕ) :
    toMono (Decoded.multi (List.replicate n [0, v])) = List.replicate n (v / 2) := by
  have h : meanList [0, v] = v / 2 := by
    simp [meanList]
  simp [toMono, List.map_replicate, h]

/-- Claim C8: `start()` on a Running server (the `server` field is set) is a
no-op, and `stop()` on a Stopped server (the `server` field is `None`) is a
no-op, whatever the outcome of a would-be bind. -/
theorem c8_start_stop_noop (s : APIServerState) (b : Option ℕ) :
    (s.server.isSome = true → APIServer.start s b = s) ∧
    (s.server = none → APIServer.stop s = s) := by
  constructor
  · intro h
    simp [APIServer.start, h]
  · intro h
    simp [APIServer.stop, h]

/-- Witness for `c8_start_stop_noop`: a concrete Running server started
again, and a concrete Stopped server stopped again. -/
theorem c8_start_stop_noop_witness :
    APIServer.start ⟨some 1, some 1⟩ (some 2) = ⟨some 1, some 1⟩ ∧
    APIServer.stop ⟨none, none⟩ = ⟨none, none⟩ :=
  ⟨(c8_start_stop_noop ⟨some 1, some 1⟩ (some 2)).1 rfl,
   (c8_start_stop_noop ⟨none, none⟩ none).2 rfl⟩

/-- Claim C9: a transcription POST with no `Content-Length` header has its
body read as exactly zero bytes (`int(headers.get(..., 0)) = 0`, whatever is
waiting unread on the connection), and when the `Content-Type` carries a
nonempty `boundary=` parameter the empty body parses to an empty field
mapping, so the response is HTTP 400 `Missing required field: file`. -/
theorem c9_no_content_length_400 (ct stream b : List Char)
    (sfRead : List Char → Except PyErr (Decoded × ℕ))
    (hmp : containsBytes ct ("multipart/form-data".data) = true)
    (hb : extractBoundary ct = some b) (hbne : b ≠ []) :
    readBody none stream = Except.ok [] ∧
    handle_transcription true sfRead ⟨some ct, none, stream⟩ =
      HandlerOutcome.response 400 "Missing required field: file" := by
  refine ⟨readBody_none stream, ?_⟩
  simp only [handle_transcription, Option.getD, hmp]
  simp only [handleTryBlock, readBody_none, parse_multipart_nil ct b hb hbne]
  simp [dictGet]

/-- Witness for `c9_no_content_length_400`: boundary `X`, with a nonempty
(but never read) connection stream. -/
theorem c9_no_content_length_400_witness :
    extractBoundary ctX = some ("X".data) ∧
    readBody none bodyFileOnly = Except.ok [] ∧
    handle_transcription true stubDecode ⟨some ctX, none, bodyFileOnly⟩ =
      HandlerOutcome.response 400 "Missing required field: file" :=
  ⟨rfl, (c9_no_content_length_400 ctX bodyFileOnly ("X".data) stubDecode rfl rfl
      (by decide)).1,
    (c9_no_content_length_400 ctX bodyFileOnly ("X".data) stubDecode rfl rfl (by decide)).2⟩

/-- Claim C10 counterexample: on a request whose `temperature` part arrives
as a file part with bytes `0.5`, the handler does NOT answer HTTP 500 — the
claimed `TypeError` does not exist, since Python 3's `float()` parses bytes —
and instead the engine is invoked with `temperature = 0.5`; no response at
all is written before the engine call (`statusOf` is `none`, in particular
not 500). -/
theorem c10_counterexample :
    handle_transcription true stubDecode ⟨some ctX, some ("165".data), bodyTempFile⟩ =
      HandlerOutcome.invoke [1] none none (some (1 / 2)) ∧
    statusOf (handle_transcription true stubDecode
      ⟨some ctX, some ("165".data), bodyTempFile⟩) ≠ some 500 := by
  constructor
  · have ha : parseDecimal ("0.5".data) =
        some ((1 : ℚ) * ((digitsVal ['0'] : ℚ) + (digitsVal ['5'] : ℚ) / (10 : ℚ) ^ (1 : ℕ))) :=
      rfl
    have hb : digitsVal ['0'] = 0 := rfl
    have hc : digitsVal ['5'] = 5 := rfl
    have h2 : parseDecimal ("0.5".data) = some (1 / 2 : ℚ) := by
      rw [ha, hb, hc]
      norm_num
    have key : handle_transcription true stubDecode ⟨some ctX, some ("165".data), bodyTempFile⟩ =
        HandlerOutcome.invoke [1] none none (parseDecimal ("0.5".data)) := rfl
    rw [key, h2]
  · decide

/-- Claim C10 as amended: a `temperature` part sent as a file part carries
raw bytes, but Python 3's `float()` accepts bytes, so the conversion never
raises an uncaught exception: whenever the request reaches the engine call
(the file decodes and normalizes), the engine is invoked with
`temperature = float(bytes)` when the bytes spell a number and with the
temperature treated as absent when they do not (`float()` raises
`ValueError`, which the `except ValueError` clause catches) — in either case
`parseDecimal bs`, never an HTTP 500 on account of the temperature. -/
theorem c10_temperature_file_best_effort (ct stream body : List Char)
    (cl : Option (List Char)) (d : List (String × FormValue)) (fv : FormValue)
    (ab bs : List Char) (dr : Decoded × ℕ) (an : List ℚ × ℕ)
    (sfRead : List Char → Except PyErr (Decoded × ℕ))
    (hmp : containsBytes ct ("multipart/form-data".data) = true)
    (hread : readBody cl stream = Except.ok body)
    (hparse : parse_multipart body ct = Except.ok d)
    (hfile : dictGet d "file" = some fv)
    (htemp : dictGet d "temperature" = some (FormValue.fileV bs))
    (hfv : valueBytes fv = Except.ok ab)
    (hsf : sfRead ab = Except.ok dr)
    (han : audioNormalize dr.1 dr.2 = Except.ok an) :
    handle_transcription true sfRead ⟨some ct, cl, stream⟩ =
      HandlerOutcome.invoke an.1 (dictGet d "language") (dictGet d "prompt")
        (parseDecimal bs) := by
  simp only [handle_transcription, Option.getD, hmp]
  simp only [handleTryBlock, hread, hparse, hfile, htemp, parseTemperature, pyFloat]
  rcases hpd : parseDecimal bs with _ | q
  · simp [hpd, PyErr.isValueError, hfile, hfv, hsf, han]
  · simp [hpd, hfile, hfv, hsf, han]

/-- Witness for `c10_temperature_file_best_effort`: the body whose
`temperature` part carries `filename="t.txt"` and bytes `0.5`, decoded by the
one-sample 16 kHz stub. -/
theorem c10_temperature_file_best_effort_witness :
    parse_multipart bodyTempFile ctX = Except.ok
        [("file", FormValue.fileV ("DATA".data)),
         ("temperature", FormValue.fileV ("0.5".data))] ∧
    handle_transcription true stubDecode ⟨some ctX, some ("165".data), bodyTempFile⟩ =
      HandlerOutcome.invoke [1] none none (parseDecimal ("0.5".data)) :=
  ⟨rfl, c10_temperature_file_best_effort ctX bodyTempFile bodyTempFile (some ("165".data))
    [("file", FormValue.fileV ("DATA".data)), ("temperature", FormValue.fileV ("0.5".data))]
    (FormValue.fileV ("DATA".data)) ("DATA".data) ("0.5".data) (Decoded.mono [1], 16000)
    ([1], 16000) stubDecode rfl rfl rfl rfl rfl rfl rfl rfl⟩

end Screamscriber
